import Mathlib

/-!
Verification of the Feishu spreadsheet MCP query-operation layer
(`feishu_spreadsheet_mcp/tools/spreadsheet_tools.py`) against its
specification.  The tool functions are embedded shallowly: the transport
(`api_client`) is modelled as a script of outcomes the provider returns,
and each operation returns the typed result (or typed error) together with
the list (or count) of transport requests it issued.  Parts of the data
model (`models/data_models.py`) are not in the repository snapshot and are
modelled from the specification where a claim depends on them; each such
definition is marked in its doc comment.
-/

set_option autoImplicit false

namespace FeishuMcp

/-- Error object raised by the API layer, `FeishuAPIError(code, message,
http_status)` from the data-model module. -/
structure FeishuAPIError where
  code : Int
  message : String
  http_status : Int
deriving DecidableEq, Repr

/-- A Python exception escaping one of the tool operations: either a
`ValueError` from validation or a `FeishuAPIError`. -/
inductive OpError where
  | valueError : String → OpError
  | apiError : FeishuAPIError → OpError
deriving DecidableEq, Repr

/-- One outcome of a transport (`api_client`) call: a successful payload, a
`FeishuAPIError` raised by the client, or any other exception (carrying its
`str(e)` rendering). -/
inductive ApiOutcome (α : Type) where
  | ok : α → ApiOutcome α
  | apiError : FeishuAPIError → ApiOutcome α
  | exn : String → ApiOutcome α
deriving DecidableEq, Repr

/-! ### Python `str.strip` on `List Char` -/

/-- Whitespace predicate used by the `strip` model. -/
def isWS (c : Char) : Bool := c.isWhitespace

/-- Leading-and-trailing whitespace removal on character lists, the model of
Python `str.strip()`. -/
def trimChars (cs : List Char) : List Char :=
  ((cs.dropWhile isWS).reverse.dropWhile isWS).reverse

/-- Model of Python `str.strip()`. -/
def pyStrip (s : String) : String := ⟨trimChars s.data⟩

theorem dropWhile_idem (p : Char → Bool) :
    ∀ l : List Char, (l.dropWhile p).dropWhile p = l.dropWhile p := by
  intro l
  induction l with
  | nil => rfl
  | cons a l ih =>
    by_cases h : p a
    · simp [List.dropWhile, h, ih]
    · simp [List.dropWhile, h]

theorem dropWhile_eq_self_of_append (p : Char → Bool) (xs ys : List Char)
    (h : (xs ++ ys).dropWhile p = xs ++ ys) : xs.dropWhile p = xs := by
  cases xs with
  | nil => rfl
  | cons a l =>
    by_cases hpa : p a
    · exfalso
      have hle : (((a :: l) ++ ys).dropWhile p).length ≤ (l ++ ys).length := by
        simp only [List.cons_append, List.dropWhile, hpa]
        exact (List.dropWhile_sublist p).length_le
      rw [h] at hle
      simp only [List.cons_append, List.length_cons, List.length_append] at hle
      omega
    · simp [List.dropWhile, hpa]

theorem trimChars_idem (l : List Char) : trimChars (trimChars l) = trimChars l := by
  unfold trimChars
  set A := l.dropWhile isWS with hA
  set B := A.reverse.dropWhile isWS with hB
  have hdropA : A.dropWhile isWS = A := by rw [hA]; exact dropWhile_idem isWS l
  have hdropB : B.dropWhile isWS = B := by rw [hB]; exact dropWhile_idem isWS A.reverse
  -- `B.reverse` is a prefix of `A`: `A = B.reverse ++ (A.reverse.takeWhile isWS).reverse`
  have hdecomp : A.reverse.takeWhile isWS ++ B = A.reverse := by
    rw [hB]; exact List.takeWhile_append_dropWhile isWS A.reverse
  have hApref : A = B.reverse ++ (A.reverse.takeWhile isWS).reverse := by
    have := congrArg List.reverse hdecomp
    simpa [List.reverse_append] using this.symm
  have hstep1 : B.reverse.dropWhile isWS = B.reverse := by
    apply dropWhile_eq_self_of_append isWS B.reverse ((A.reverse.takeWhile isWS).reverse)
    rw [← hApref]; exact hdropA
  rw [hstep1, List.reverse_reverse, hdropB]

/-- A character list is a member of its trimmed form only if it was a member
of the original list. -/
theorem mem_of_mem_trimChars {c : Char} {l : List Char}
    (h : c ∈ trimChars l) : c ∈ l := by
  unfold trimChars at h
  rw [List.mem_reverse] at h
  have h1 := (List.dropWhile_sublist isWS).subset h
  rw [List.mem_reverse] at h1
  exact (List.dropWhile_sublist isWS).subset h1

/-! ### Range-spec validation

`validate_range_spec` lives in `models/data_models.py`, which is absent from
the repository snapshot; it is modelled from the specification. -/

/-- Split a character list at its first `!`, returning the parts before and
after it. -/
def splitBang : List Char → Option (List Char × List Char)
  | [] => none
  | c :: rest =>
    if c = '!' then some ([], rest)
    else (splitBang rest).map (fun p => (c :: p.1, p.2))

/-- Split a character list at its first `:`, returning the parts before and
after it. -/
def splitColon : List Char → Option (List Char × List Char)
  | [] => none
  | c :: rest =>
    if c = ':' then some ([], rest)
    else (splitColon rest).map (fun p => (c :: p.1, p.2))

/-- An A1-style cell reference: one or more letters followed by one or more
digits. -/
def isCellRef (cs : List Char) : Bool :=
  decide (cs.takeWhile (·.isAlpha) ≠ []) &&
  decide (cs.dropWhile (·.isAlpha) ≠ []) &&
  (cs.dropWhile (·.isAlpha)).all (·.isDigit)

/-- Pattern check of the range-spec validator on an already-trimmed
character list: a non-empty sheet id before `!`, then an `A1`-style cell on
each side of `:`; on success the input is returned unchanged. -/
def validateRangeCore (t : List Char) : Option (List Char) :=
  match splitBang t with
  | none => none
  | some (sheetId, rest) =>
    if sheetId = [] then none
    else
      match splitColon rest with
      | none => none
      | some (a, b) => if isCellRef a && isCellRef b then some t else none

/-- Character-level body of the range-spec validator: trim, then pattern
check; on success return the trimmed character list. -/
def validateRangeChars (cs : List Char) : Option (List Char) :=
  validateRangeCore (trimChars cs)

/-- Modelled from the spec: `validate_range_spec` of `models/data_models.py`
(absent from the repository snapshot).  Per spec §4.5 it trims surrounding
whitespace, fails when the string is empty/whitespace-only, missing the
`sheet_id!` segment, or the cell portion is not
column-letters+row-number:column-letters+row-number; per the repository's
tests it returns the trimmed string on success. -/
def validate_range_spec (s : String) : Option String :=
  (validateRangeChars s.data).map (fun cs => ⟨cs⟩)

theorem splitBang_mem {cs : List Char} {p : List Char × List Char}
    (h : splitBang cs = some p) : '!' ∈ cs := by
  induction cs generalizing p with
  | nil => simp [splitBang] at h
  | cons c rest ih =>
    by_cases hc : c = '!'
    · simp [hc]
    · simp only [splitBang, if_neg hc, Option.map_eq_some'] at h
      obtain ⟨q, hq, _⟩ := h
      exact List.mem_cons_of_mem c (ih hq)

theorem validateRangeCore_eq_self {t u : List Char}
    (h : validateRangeCore t = some u) : u = t := by
  unfold validateRangeCore at h
  cases hsb : splitBang t with
  | none => rw [hsb] at h; simp at h
  | some p =>
    obtain ⟨sheetId, rest⟩ := p
    rw [hsb] at h
    by_cases hid : sheetId = []
    · simp [hid] at h
    · simp only [hid, if_false] at h
      cases hsc : splitColon rest with
      | none => rw [hsc] at h; simp at h
      | some q =>
        obtain ⟨a, b⟩ := q
        rw [hsc] at h
        by_cases hcell : (isCellRef a && isCellRef b) = true
        · simp only [hcell, if_true, Option.some.injEq] at h
          exact h.symm
        · simp [hcell] at h

/-- A string with no `!` at all never validates. -/
theorem validate_none_of_no_bang {s : String} (h : '!' ∉ s.data) :
    validate_range_spec s = none := by
  unfold validate_range_spec validateRangeChars validateRangeCore
  cases hsb : splitBang (trimChars s.data) with
  | none => simp
  | some p =>
    exact absurd (mem_of_mem_trimChars (splitBang_mem hsb)) h

/-- The validator is idempotent on the character level. -/
theorem validateRangeChars_idem {cs t : List Char}
    (h : validateRangeChars cs = some t) : validateRangeChars t = some t := by
  have ht : t = trimChars cs := validateRangeCore_eq_self h
  subst ht
  unfold validateRangeChars at h ⊢
  rw [trimChars_idem]
  exact h

/-- String-level idempotence of the validator: a successful result
re-validates to itself. -/
theorem validate_range_spec_idem {x y : String}
    (h : validate_range_spec x = some y) : validate_range_spec y = some y := by
  unfold validate_range_spec at h ⊢
  rw [Option.map_eq_some'] at h
  obtain ⟨cs, hcs, hy⟩ := h
  subst hy
  rw [Option.map_eq_some']
  exact ⟨cs, validateRangeChars_idem hcs, rfl⟩

/-! ### Result records and their parsers

The records (`SpreadsheetInfo`, `WorksheetInfo`, `RangeData`, `FindResult`)
and their `from_api_response` constructors live in `models/data_models.py`,
absent from the repository snapshot; they are modelled from the
specification: a raw entry is a record of optional fields, and a record
missing a required field is rejected (`ValueError`), modelled as `none`. -/

/-- Raw file entry of a list-files response page. -/
structure RawFile where
  type : Option String
  token : Option String
  name : Option String
  url : Option String
deriving DecidableEq, Repr

/-- Typed document record produced from a well-formed file entry. -/
structure SpreadsheetInfo where
  token : String
  name : String
  url : String
deriving DecidableEq, Repr

/-- Modelled from the spec: `SpreadsheetInfo.from_api_response`
(`models/data_models.py` is absent from the repository snapshot); a record
missing a required field is rejected rather than partially populated. -/
def SpreadsheetInfo.from_api_response (f : RawFile) : Option SpreadsheetInfo :=
  match f.token, f.name, f.url with
  | some t, some n, some u => some ⟨t, n, u⟩
  | _, _, _ => none

/-- Raw worksheet entry of a get-worksheets response. -/
structure RawWorksheet where
  sheet_id : Option String
  title : Option String
deriving DecidableEq, Repr

/-- Typed worksheet record. -/
structure WorksheetInfo where
  sheet_id : String
  title : String
deriving DecidableEq, Repr

/-- Modelled from the spec: `WorksheetInfo.from_api_response`
(`models/data_models.py` is absent from the repository snapshot); a record
missing a required field is rejected rather than partially populated. -/
def WorksheetInfo.from_api_response (w : RawWorksheet) : Option WorksheetInfo :=
  match w.sheet_id, w.title with
  | some s, some t => some ⟨s, t⟩
  | _, _ => none

/-- Raw `valueRange` object of a range-read response. -/
structure RawRange where
  range : Option String
  major_dimension : Option String
  values : List (List String)
  revision : Int
deriving DecidableEq, Repr

/-- Typed range-read record (`RangeData(range, major_dimension, values,
revision)`). -/
structure RangeData where
  range : String
  major_dimension : String
  values : List (List String)
  revision : Int
deriving DecidableEq, Repr

/-- Modelled from the spec: `RangeData.from_api_response`
(`models/data_models.py` is absent from the repository snapshot); a
`valueRange` object missing a required field is rejected (`ValueError`)
rather than partially populated. -/
def RangeData.from_api_response (r : RawRange) : Option RangeData :=
  match r.range, r.major_dimension with
  | some rg, some md => some ⟨rg, md, r.values, r.revision⟩
  | _, _ => none

/-- Raw `find_result` object of a find-cells response. -/
structure RawFind where
  matched_cells : List String
  matched_formula_cells : List String
deriving DecidableEq, Repr

/-- Typed find-cells result. -/
structure FindResult where
  matched_cells : List String
  matched_formula_cells : List String
deriving DecidableEq, Repr

/-- Modelled from the spec: `FindResult.from_api_response`
(`models/data_models.py` is absent from the repository snapshot); maps the
matched cell addresses and matched formula-cell addresses. -/
def FindResult.from_api_response (r : RawFind) : FindResult :=
  ⟨r.matched_cells, r.matched_formula_cells⟩

/-! ### Localized messages (string constants from `spreadsheet_tools.py`) -/

/-- "no access permission" message of `list_spreadsheets` (code 1061004). -/
def msgListPermission : String := "没有访问权限。请检查文档权限设置或联系文档所有者。"

/-- "authentication failed" message shared by all operations. -/
def msgAuthFailed : String := "认证失败。请检查app_id和app_secret配置。"

/-- "spreadsheet does not exist" message (code 1310214). -/
def msgSpreadsheetNotFound : String := "指定的电子表格不存在。请检查spreadsheet_token是否正确。"

/-- "no read permission" message (code 1310213). -/
def msgReadPermission : String := "没有读取权限。请检查电子表格权限设置或联系文档所有者。"

/-- "worksheet does not exist" message of `read_range` (code 1310215). -/
def msgSheetNotFoundRange : String := "指定的工作表不存在。请检查range_spec中的工作表ID是否正确。"

/-- "worksheet does not exist" message of `read_multiple_ranges` (code 1310215). -/
def msgSheetNotFoundRanges : String := "指定的工作表不存在。请检查ranges中的工作表ID是否正确。"

/-- "worksheet does not exist" message of `find_cells` (code 1310215). -/
def msgSheetNotFoundFind : String := "指定的工作表不存在。请检查sheet_id是否正确。"

/-- "invalid range format" message of `read_range`/`read_multiple_ranges`
(code 1310216). -/
def msgRangeFormat : String := "范围格式无效。请使用正确的格式，如 \x27sheetId!A1:B10\x27。"

/-- "invalid range format" message of `find_cells` (code 1310216). -/
def msgRangeFormatFind : String := "范围格式无效。请使用正确的格式，如 \x27A1:B10\x27。"

/-- "data over 10MB" message of `read_range` (code 1310218). -/
def msgSizeLimitRange : String := "返回数据超过10MB限制。请缩小查询范围。"

/-- "data over 10MB" message of `read_multiple_ranges` (code 1310218). -/
def msgSizeLimitRanges : String := "返回数据超过10MB限制。请减少查询范围的数量或大小。"

/-- "invalid regex" message of `find_cells` (code 1310219). -/
def msgRegexFormat : String := "正则表达式格式无效。请检查正则表达式语法。"

/-- Wrap-message head of `list_spreadsheets` for unexpected exceptions. -/
def wrapHeadList : String := "获取电子表格列表时发生错误: "

/-- Wrap-message head of `get_worksheets` for unexpected exceptions. -/
def wrapHeadWorksheets : String := "获取工作表列表时发生错误: "

/-- Wrap-message head of `read_range` for unexpected exceptions. -/
def wrapHeadRange : String := "读取范围数据时发生错误: "

/-- Wrap-message head of `read_multiple_ranges` for unexpected exceptions. -/
def wrapHeadRanges : String := "批量读取范围数据时发生错误: "

/-- Wrap-message head of `find_cells` for unexpected exceptions. -/
def wrapHeadFind : String := "查找单元格时发生错误: "

/-! ### Error remapping (the `except FeishuAPIError` chains)

Each operation's `except FeishuAPIError` handler re-raises known codes with
a localized message, preserving the original `code` and `http_status`, and
re-raises everything else unchanged.  `FeishuAPIError.is_authentication_error`
lives in the absent data-model module, so the handlers are parameterized by
that predicate (`ia`). -/

/-- `list_spreadsheets`'s `except FeishuAPIError` handler. -/
def mapListFilesError (ia : Int → Bool) (e : FeishuAPIError) : FeishuAPIError :=
  if e.code = 1061004 then ⟨e.code, msgListPermission, e.http_status⟩
  else if ia e.code then ⟨e.code, msgAuthFailed, e.http_status⟩
  else e

/-- `get_worksheets`'s `except FeishuAPIError` handler. -/
def mapWorksheetsError (ia : Int → Bool) (e : FeishuAPIError) : FeishuAPIError :=
  if e.code = 1310214 then ⟨e.code, msgSpreadsheetNotFound, e.http_status⟩
  else if e.code = 1310213 then ⟨e.code, msgReadPermission, e.http_status⟩
  else if ia e.code then ⟨e.code, msgAuthFailed, e.http_status⟩
  else e

/-- `read_range`'s `except FeishuAPIError` handler. -/
def mapReadRangeError (ia : Int → Bool) (e : FeishuAPIError) : FeishuAPIError :=
  if e.code = 1310214 then ⟨e.code, msgSpreadsheetNotFound, e.http_status⟩
  else if e.code = 1310215 then ⟨e.code, msgSheetNotFoundRange, e.http_status⟩
  else if e.code = 1310213 then ⟨e.code, msgReadPermission, e.http_status⟩
  else if e.code = 1310216 then ⟨e.code, msgRangeFormat, e.http_status⟩
  else if e.code = 1310218 then ⟨e.code, msgSizeLimitRange, e.http_status⟩
  else if ia e.code then ⟨e.code, msgAuthFailed, e.http_status⟩
  else e

/-- `read_multiple_ranges`'s `except FeishuAPIError` handler. -/
def mapMultiRangeError (ia : Int → Bool) (e : FeishuAPIError) : FeishuAPIError :=
  if e.code = 1310214 then ⟨e.code, msgSpreadsheetNotFound, e.http_status⟩
  else if e.code = 1310215 then ⟨e.code, msgSheetNotFoundRanges, e.http_status⟩
  else if e.code = 1310213 then ⟨e.code, msgReadPermission, e.http_status⟩
  else if e.code = 1310216 then ⟨e.code, msgRangeFormat, e.http_status⟩
  else if e.code = 1310218 then ⟨e.code, msgSizeLimitRanges, e.http_status⟩
  else if ia e.code then ⟨e.code, msgAuthFailed, e.http_status⟩
  else e

/-- `find_cells`'s `except FeishuAPIError` handler. -/
def mapFindCellsError (ia : Int → Bool) (e : FeishuAPIError) : FeishuAPIError :=
  if e.code = 1310214 then ⟨e.code, msgSpreadsheetNotFound, e.http_status⟩
  else if e.code = 1310215 then ⟨e.code, msgSheetNotFoundFind, e.http_status⟩
  else if e.code = 1310213 then ⟨e.code, msgReadPermission, e.http_status⟩
  else if e.code = 1310216 then ⟨e.code, msgRangeFormatFind, e.http_status⟩
  else if e.code = 1310219 then ⟨e.code, msgRegexFormat, e.http_status⟩
  else if ia e.code then ⟨e.code, msgAuthFailed, e.http_status⟩
  else e

/-- Error categories of the specification's taxonomy (§7). -/
inductive ErrorCategory where
  | validation | authentication | permission | notFound
  | formatInvalid | sizeLimit | rateLimited | unknown
deriving DecidableEq, Repr

/-- Modelled from the spec: the error-code-to-category table of §7/§8
(the centralized classifier module is absent from the repository snapshot);
any unlisted provider code is Unknown per §9. -/
def errorCategoryOfCode (c : Int) : ErrorCategory :=
  if c = 1310214 then .notFound
  else if c = 1310213 then .permission
  else if c = 1310218 then .sizeLimit
  else if c = 1310216 then .formatInvalid
  else .unknown

/-! ### `list_spreadsheets` -/

/-- One page payload of `api_client.list_files`:
`response["data"]["files"]` and `response["data"]["page_token"]`. -/
structure ListFilesResp where
  files : List RawFile
  page_token : Option String
deriving DecidableEq, Repr

/-- Parameters of one `api_client.list_files` call: `folder_token` plus the
`params` dict (`page_size`, and `page_token` only when truthy). -/
structure ListFilesRequest where
  folder_token : Option String
  page_size : Int
  page_token : Option String
deriving DecidableEq, Repr

/-- Python truthiness of the optional page token (`if page_token:` /
`if not page_token: break`): `None` and `""` are falsy. -/
def tokenTruthy : Option String → Bool
  | none => false
  | some s => s ≠ ""

/-- Per-page filtering and parsing of `list_spreadsheets`: keep entries with
`type == "sheet"`, parse each, and skip (`except ValueError: continue`) the
ones that fail to parse. -/
def processFiles (files : List RawFile) : List SpreadsheetInfo :=
  files.filterMap fun f =>
    if f.type = some "sheet" then SpreadsheetInfo.from_api_response f else none

/-- The pagination loop of `list_spreadsheets` (its `while True`), consuming
one scripted transport outcome per iteration and recording each issued
request.  An exhausted script models the mock raising once its side-effect
list runs out, which the generic `except Exception` wraps. -/
def listLoop (ia : Int → Bool) (ps : Int) (ft : Option String) :
    List (ApiOutcome ListFilesResp) → Option String → List SpreadsheetInfo →
    List ListFilesRequest →
    Except OpError (List SpreadsheetInfo) × List ListFilesRequest
  | [], tok, _, reqs =>
    (.error (.apiError ⟨-1, wrapHeadList ++ "StopAsyncIteration", 500⟩),
     reqs ++ [⟨ft, ps, if tokenTruthy tok then tok else none⟩])
  | r :: rest, tok, acc, reqs =>
    let reqs2 := reqs ++ [⟨ft, ps, if tokenTruthy tok then tok else none⟩]
    match r with
    | .ok resp =>
      let acc2 := acc ++ processFiles resp.files
      if tokenTruthy resp.page_token then
        listLoop ia ps ft rest resp.page_token acc2 reqs2
      else
        (.ok acc2, reqs2)
    | .apiError e => (.error (.apiError (mapListFilesError ia e)), reqs2)
    | .exn m => (.error (.apiError ⟨-1, wrapHeadList ++ m, 500⟩), reqs2)

/-- `list_spreadsheets(api_client, folder_token, page_size)`: validates and
caps `page_size`, validates the optional `folder_token`, then paginates.
The transport is the script `responses`; the second component is the list of
issued `list_files` requests. -/
def list_spreadsheets (responses : List (ApiOutcome ListFilesResp))
    (ia : Int → Bool) (folder_token : Option String) (page_size : Int) :
    Except OpError (List SpreadsheetInfo) × List ListFilesRequest :=
  if page_size ≤ 0 then
    (.error (.valueError "page_size must be a positive integer"), [])
  else
    let ps := if page_size > 200 then 200 else page_size
    match folder_token with
    | some ftk =>
      if pyStrip ftk = "" then
        (.error (.valueError "folder_token must be a non-empty string if provided"), [])
      else listLoop ia ps (some (pyStrip ftk)) responses none [] []
    | none => listLoop ia ps none responses none [] []

/-! ### `get_worksheets` -/

/-- `get_worksheets(api_client, spreadsheet_token)`: validates the token,
makes a single call, parses the worksheet entries skipping malformed ones.
The second component counts transport calls. -/
def get_worksheets (transport : ApiOutcome (List RawWorksheet))
    (ia : Int → Bool) (spreadsheet_token : String) :
    Except OpError (List WorksheetInfo) × Nat :=
  if spreadsheet_token = "" then
    (.error (.valueError "spreadsheet_token must be a non-empty string"), 0)
  else if pyStrip spreadsheet_token = "" then
    (.error (.valueError "spreadsheet_token cannot be empty or whitespace only"), 0)
  else
    match transport with
    | .ok ws => (.ok (ws.filterMap WorksheetInfo.from_api_response), 1)
    | .apiError e => (.error (.apiError (mapWorksheetsError ia e)), 1)
    | .exn m => (.error (.apiError ⟨-1, wrapHeadWorksheets ++ m, 500⟩), 1)

/-! ### `read_range` -/

/-- Valid members of `value_render_option`. -/
def validValueOptions : List String :=
  ["ToString", "Formula", "FormattedValue", "UnformattedValue"]

/-- Valid members of `date_time_render_option`. -/
def validDatetimeOptions : List String := ["FormattedString"]

/-- `read_range(api_client, spreadsheet_token, range_spec, ...)`: validates
the token, the range spec and the two render options, makes a single call,
and maps the `valueRange` payload.  A payload the parser rejects raises
`ValueError` inside the `try`, which the generic handler wraps with code
`-1`.  The second component counts transport calls. -/
def read_range (transport : ApiOutcome RawRange) (ia : Int → Bool)
    (spreadsheet_token range_spec value_render_option date_time_render_option : String) :
    Except OpError RangeData × Nat :=
  if spreadsheet_token = "" then
    (.error (.valueError "spreadsheet_token must be a non-empty string"), 0)
  else if pyStrip spreadsheet_token = "" then
    (.error (.valueError "spreadsheet_token cannot be empty or whitespace only"), 0)
  else
    match validate_range_spec range_spec with
    | none => (.error (.valueError "invalid range_spec"), 0)
    | some _ =>
      if ¬ validValueOptions.contains value_render_option then
        (.error (.valueError "value_render_option must be one of the valid options"), 0)
      else if ¬ validDatetimeOptions.contains date_time_render_option then
        (.error (.valueError "date_time_render_option must be one of the valid options"), 0)
      else
        match transport with
        | .ok raw =>
          match RangeData.from_api_response raw with
          | some rd => (.ok rd, 1)
          | none =>
            (.error (.apiError ⟨-1, wrapHeadRange ++ "invalid range data", 500⟩), 1)
        | .apiError e => (.error (.apiError (mapReadRangeError ia e)), 1)
        | .exn m => (.error (.apiError ⟨-1, wrapHeadRange ++ m, 500⟩), 1)

/-! ### `read_multiple_ranges` -/

/-- Payload of one `api_client.read_multiple_ranges` response:
`response["data"]["valueRanges"]`. -/
structure MultiRangeResp where
  valueRanges : List RawRange
deriving DecidableEq, Repr

/-- The per-member validation loop of `read_multiple_ranges`
(`for i, range_spec in enumerate(ranges)`): the first failing member raises
a `ValueError` naming its index. -/
def validateRanges : List String → Nat → Except OpError (List String)
  | [], _ => .ok []
  | r :: rest, i =>
    match validate_range_spec r with
    | none => .error (.valueError ("Invalid range at index " ++ toString i ++ ": invalid range_spec"))
    | some v => (validateRanges rest (i + 1)).map (fun vs => v :: vs)

/-- The placeholder `RangeData` substituted for a malformed `valueRange`
entry at index `i` (`validated_ranges[i] if i < len(validated_ranges) else
f"unknown_range_..."`, major dimension ROWS, no values, revision 0). -/
def placeholderRange (validated : List String) (i : Nat) : RangeData :=
  { range := validated.getD i ("unknown_range_" ++ toString i)
    major_dimension := "ROWS"
    values := []
    revision := 0 }

/-- The response-mapping loop of `read_multiple_ranges`: one output entry
per entry of the provider's `valueRanges` list, in order, substituting the
placeholder for entries the parser rejects. -/
def mapValueRanges (validated : List String) : List RawRange → Nat → List RangeData
  | [], _ => []
  | rd :: rest, i =>
    (match RangeData.from_api_response rd with
     | some r => r
     | none => placeholderRange validated i) :: mapValueRanges validated rest (i + 1)

/-- `read_multiple_ranges(api_client, spreadsheet_token, ranges, ...)`:
validates the token, the list bounds (non-empty, at most 100), each member
range (reporting the offending index), and the render options; then makes a
single batched call and maps the returned `valueRanges`.  The second
component counts transport calls. -/
def read_multiple_ranges (transport : ApiOutcome MultiRangeResp)
    (ia : Int → Bool) (spreadsheet_token : String) (ranges : List String)
    (value_render_option date_time_render_option : String) :
    Except OpError (List RangeData) × Nat :=
  if spreadsheet_token = "" then
    (.error (.valueError "spreadsheet_token must be a non-empty string"), 0)
  else if pyStrip spreadsheet_token = "" then
    (.error (.valueError "spreadsheet_token cannot be empty or whitespace only"), 0)
  else if ranges.length = 0 then
    (.error (.valueError "ranges cannot be empty"), 0)
  else if ranges.length > 100 then
    (.error (.valueError "ranges cannot contain more than 100 items"), 0)
  else
    match validateRanges ranges 0 with
    | .error e => (.error e, 0)
    | .ok validated =>
      if ¬ validValueOptions.contains value_render_option then
        (.error (.valueError "value_render_option must be one of the valid options"), 0)
      else if ¬ validDatetimeOptions.contains date_time_render_option then
        (.error (.valueError "date_time_render_option must be one of the valid options"), 0)
      else
        match transport with
        | .ok resp => (.ok (mapValueRanges validated resp.valueRanges 0), 1)
        | .apiError e => (.error (.apiError (mapMultiRangeError ia e)), 1)
        | .exn m => (.error (.apiError ⟨-1, wrapHeadRanges ++ m, 500⟩), 1)

/-! ### `find_cells` -/

/-- `find_cells(api_client, spreadsheet_token, sheet_id, range_spec,
find_text, ...)`: validates non-blank string arguments, and — when
`search_by_regex` — that the (stripped) search text compiles as a regex.
The compiled-regex check (`re.compile`) is the Python `re` module, external
to the repository; it is passed in as the predicate `regexOk`.  The second
component counts transport calls. -/
def find_cells (transport : ApiOutcome RawFind) (ia : Int → Bool)
    (regexOk : String → Bool)
    (spreadsheet_token sheet_id range_spec find_text : String)
    (match_case match_entire_cell search_by_regex include_formulas : Bool) :
    Except OpError FindResult × Nat :=
  if spreadsheet_token = "" then
    (.error (.valueError "spreadsheet_token must be a non-empty string"), 0)
  else if pyStrip spreadsheet_token = "" then
    (.error (.valueError "spreadsheet_token cannot be empty or whitespace only"), 0)
  else if sheet_id = "" then
    (.error (.valueError "sheet_id must be a non-empty string"), 0)
  else if pyStrip sheet_id = "" then
    (.error (.valueError "sheet_id cannot be empty or whitespace only"), 0)
  else if range_spec = "" then
    (.error (.valueError "range_spec must be a non-empty string"), 0)
  else if pyStrip range_spec = "" then
    (.error (.valueError "range_spec cannot be empty or whitespace only"), 0)
  else if find_text = "" then
    (.error (.valueError "find_text must be a non-empty string"), 0)
  else if pyStrip find_text = "" then
    (.error (.valueError "find_text cannot be empty or whitespace only"), 0)
  else if search_by_regex && ¬ regexOk (pyStrip find_text) then
    (.error (.valueError "Invalid regular expression"), 0)
  else
    match transport with
    | .ok raw => (.ok (FindResult.from_api_response raw), 1)
    | .apiError e => (.error (.apiError (mapFindCellsError ia e)), 1)
    | .exn m => (.error (.apiError ⟨-1, wrapHeadFind ++ m, 500⟩), 1)

/-! ### Lemmas about the pagination loop -/

/-- The requests a fully consumed all-`ok` script gives rise to: one per
page, each carrying the previous page's token (the first carries none). -/
def chainedRequests (ps : Int) (ft : Option String) :
    Option String → List ListFilesResp → List ListFilesRequest
  | _, [] => []
  | tok, pg :: rest =>
    ⟨ft, ps, if tokenTruthy tok then tok else none⟩ ::
      chainedRequests ps ft pg.page_token rest

theorem chainedRequests_length (ps : Int) (ft : Option String) :
    ∀ (pages : List ListFilesResp) (tok : Option String),
      (chainedRequests ps ft tok pages).length = pages.length := by
  intro pages
  induction pages with
  | nil => intro tok; rfl
  | cons pg rest ih =>
    intro tok
    simp only [chainedRequests, List.length_cons, ih]

/-- Every request the loop appends carries the loop's `page_size`. -/
theorem listLoop_pageSize (ia : Int → Bool) (ps : Int) (ft : Option String) :
    ∀ (responses : List (ApiOutcome ListFilesResp)) (tok : Option String)
      (acc : List SpreadsheetInfo) (reqs : List ListFilesRequest),
      (∀ q ∈ reqs, q.page_size = ps) →
      ∀ q ∈ (listLoop ia ps ft responses tok acc reqs).2, q.page_size = ps := by
  intro responses
  induction responses with
  | nil =>
    intro tok acc reqs hreqs q hq
    simp only [listLoop, List.mem_append, List.mem_singleton] at hq
    rcases hq with h | h
    · exact hreqs q h
    · rw [h]
  | cons r rest ih =>
    intro tok acc reqs hreqs q hq
    have hreqs2 : ∀ q ∈ reqs ++ [(⟨ft, ps, if tokenTruthy tok then tok else none⟩ :
        ListFilesRequest)], q.page_size = ps := by
      intro q hq
      rcases List.mem_append.mp hq with h | h
      · exact hreqs q h
      · rw [List.mem_singleton.mp h]
    cases r with
    | ok resp =>
      simp only [listLoop] at hq
      by_cases htr : tokenTruthy resp.page_token
      · rw [if_pos htr] at hq
        exact ih resp.page_token _ _ hreqs2 q hq
      · rw [if_neg htr] at hq
        exact hreqs2 q hq
    | apiError e =>
      simp only [listLoop] at hq
      exact hreqs2 q hq
    | exn m =>
      simp only [listLoop] at hq
      exact hreqs2 q hq

/-- One unfolding step of the loop on a successful page. -/
theorem listLoop_cons_ok (ia : Int → Bool) (ps : Int) (ft : Option String)
    (resp : ListFilesResp) (rest : List (ApiOutcome ListFilesResp))
    (tok : Option String) (acc : List SpreadsheetInfo)
    (reqs : List ListFilesRequest) :
    listLoop ia ps ft (.ok resp :: rest) tok acc reqs =
      (if tokenTruthy resp.page_token then
        listLoop ia ps ft rest resp.page_token (acc ++ processFiles resp.files)
          (reqs ++ [⟨ft, ps, if tokenTruthy tok then tok else none⟩])
      else
        (.ok (acc ++ processFiles resp.files),
         reqs ++ [⟨ft, ps, if tokenTruthy tok then tok else none⟩])) := rfl

/-- On an all-`ok` script whose pages all carry a truthy token except the
last, the loop returns the accumulated and per-page-filtered documents in
arrival order and issues exactly the chained requests. -/
theorem listLoop_ok_script (ia : Int → Bool) (ps : Int) (ft : Option String) :
    ∀ (pages : List ListFilesResp) (tok : Option String)
      (acc : List SpreadsheetInfo) (reqs : List ListFilesRequest),
      pages ≠ [] →
      (∀ pg ∈ pages.dropLast, tokenTruthy pg.page_token = true) →
      (∀ pg ∈ pages.getLast?, tokenTruthy pg.page_token = false) →
      listLoop ia ps ft (pages.map .ok) tok acc reqs =
        (.ok (acc ++ (pages.map fun pg => processFiles pg.files).join),
         reqs ++ chainedRequests ps ft tok pages) := by
  intro pages
  induction pages with
  | nil => intro tok acc reqs hne _ _; exact absurd rfl hne
  | cons pg rest ih =>
    intro tok acc reqs _ hmid hlast
    cases rest with
    | nil =>
      have hnt : tokenTruthy pg.page_token = false := by
        exact hlast pg (by simp [List.getLast?])
      rw [List.map_cons, List.map_nil, listLoop_cons_ok, if_neg (by simp [hnt])]
      simp [chainedRequests, List.join]
    | cons pg2 rest2 =>
      have htr : tokenTruthy pg.page_token = true := by
        apply hmid pg
        simp [List.dropLast_cons_of_ne_nil]
      have hmid2 : ∀ q ∈ (pg2 :: rest2).dropLast, tokenTruthy q.page_token = true := by
        intro q hq
        apply hmid q
        rw [List.dropLast_cons_of_ne_nil (by simp)]
        exact List.mem_cons_of_mem pg hq
      have hlast2 : ∀ q ∈ (pg2 :: rest2).getLast?, tokenTruthy q.page_token = false := by
        intro q hq
        apply hlast q
        rwa [List.getLast?_cons_cons]
      rw [List.map_cons, listLoop_cons_ok, if_pos htr]
      rw [ih pg.page_token _ _ (by simp) hmid2 hlast2]
      simp only [chainedRequests, List.map_cons, List.join]
      simp [List.append_assoc]

/-- If every page of an all-`ok` prefix carries a truthy token and the next
scripted outcome is a provider error, the loop propagates the remapped error
and returns no documents, whatever it had already accumulated. -/
theorem listLoop_error_after (ia : Int → Bool) (ps : Int) (ft : Option String)
    (e : FeishuAPIError) :
    ∀ (pages : List ListFilesResp) (rest : List (ApiOutcome ListFilesResp))
      (tok : Option String) (acc : List SpreadsheetInfo)
      (reqs : List ListFilesRequest),
      (∀ pg ∈ pages, tokenTruthy pg.page_token = true) →
      (listLoop ia ps ft (pages.map .ok ++ .apiError e :: rest) tok acc reqs).1 =
        .error (.apiError (mapListFilesError ia e)) := by
  intro pages
  induction pages with
  | nil =>
    intro rest tok acc reqs _
    simp [listLoop]
  | cons pg rest2 ih =>
    intro rest tok acc reqs htok
    have htr : tokenTruthy pg.page_token = true := htok pg (List.mem_cons_self pg rest2)
    rw [List.map_cons, List.cons_append, listLoop_cons_ok, if_pos htr]
    exact ih rest pg.page_token _ _ (fun q hq => htok q (List.mem_cons_of_mem pg hq))

/-! ### Lemmas about `read_multiple_ranges` -/

theorem mapValueRanges_length (validated : List String) :
    ∀ (l : List RawRange) (i : Nat),
      (mapValueRanges validated l i).length = l.length := by
  intro l
  induction l with
  | nil => intro i; rfl
  | cons rd rest ih =>
    intro i
    simp only [mapValueRanges, List.length_cons, ih]

theorem mapValueRanges_get (validated : List String) :
    ∀ (l : List RawRange) (k i : Nat) (h1 : i < l.length)
      (h2 : i < (mapValueRanges validated l k).length),
      (mapValueRanges validated l k).get ⟨i, h2⟩ =
        (match RangeData.from_api_response (l.get ⟨i, h1⟩) with
         | some r => r
         | none => placeholderRange validated (k + i)) := by
  intro l
  induction l with
  | nil => intro k i h1 _; exact absurd h1 (by simp)
  | cons rd rest ih =>
    intro k i h1 h2
    cases i with
    | zero => simp [mapValueRanges]
    | succ j =>
      have h1' : j < rest.length := by simpa using h1
      have h2' : j < (mapValueRanges validated rest (k + 1)).length := by
        simpa [mapValueRanges] using h2
      have := ih (k + 1) j h1' h2'
      simp only [mapValueRanges, List.get_cons_succ, List.get]
      rw [show k + (j + 1) = (k + 1) + j by omega]
      exact this

/-- If some member of the list fails validation, the indexed validation loop
fails with a `ValueError`. -/
theorem validateRanges_mem_none {r : String} :
    ∀ (ranges : List String), r ∈ ranges → validate_range_spec r = none →
      ∀ k, ∃ m, validateRanges ranges k = .error (.valueError m) := by
  intro ranges
  induction ranges with
  | nil => intro h; exact absurd h (List.not_mem_nil r)
  | cons a rest ih =>
    intro hmem hnone k
    rcases List.mem_cons.mp hmem with h | h
    · subst h
      refine ⟨"Invalid range at index " ++ toString k ++ ": invalid range_spec", ?_⟩
      simp [validateRanges, hnone]
    · cases ha : validate_range_spec a with
      | none =>
        exact ⟨"Invalid range at index " ++ toString k ++ ": invalid range_spec",
          by simp [validateRanges, ha]⟩
      | some v =>
        obtain ⟨m, hm⟩ := ih h hnone (k + 1)
        refine ⟨m, ?_⟩
        simp [validateRanges, ha, hm, Except.map]

/-- The indexed validation loop fails at the first invalid member, naming
its (offset) index. -/
theorem validateRanges_first_bad :
    ∀ (ranges : List String) (i k : Nat) (hi : i < ranges.length),
      (∀ r ∈ ranges.take i, (validate_range_spec r).isSome) →
      validate_range_spec (ranges.get ⟨i, hi⟩) = none →
      validateRanges ranges k =
        .error (.valueError ("Invalid range at index " ++ toString (k + i) ++
          ": invalid range_spec")) := by
  intro ranges
  induction ranges with
  | nil => intro i k hi; exact absurd hi (by simp)
  | cons a rest ih =>
    intro i k hi hvalid hbad
    cases i with
    | zero =>
      simp only [List.get] at hbad
      simp [validateRanges, hbad]
    | succ j =>
      have ha : (validate_range_spec a).isSome := by
        apply hvalid a
        simp [List.take_succ_cons]
      obtain ⟨v, hv⟩ := Option.isSome_iff_exists.mp ha
      have hj : j < rest.length := by simpa using hi
      have hvalid2 : ∀ r ∈ rest.take j, (validate_range_spec r).isSome := by
        intro r hr
        exact hvalid r (by simp [List.take_succ_cons, hr])
      have hbad2 : validate_range_spec (rest.get ⟨j, hj⟩) = none := by
        simpa using hbad
      have := ih j (k + 1) hj hvalid2 hbad2
      simp only [validateRanges, hv, this]
      rw [show (k + 1) + j = k + (j + 1) by omega]
      rfl

/-! ### Claim theorems -/

/-- C9: the range-spec validator trims surrounding whitespace before
matching and is idempotent: every successfully validated result re-validates
to itself, and validating " Sheet1!A1:B10 " equals validating
"Sheet1!A1:B10". -/
theorem c9_validator_trim_idempotent :
    (∀ x y : String, validate_range_spec x = some y →
      validate_range_spec y = some y) ∧
    validate_range_spec " Sheet1!A1:B10 " = validate_range_spec "Sheet1!A1:B10" :=
  ⟨fun _ _ h => validate_range_spec_idem h, by decide⟩

/-- Witness for C9 at the concrete input "Sheet1!A1:B10". -/
theorem c9_validator_trim_idempotent_witness :
    validate_range_spec "Sheet1!A1:B10" = some "Sheet1!A1:B10" :=
  c9_validator_trim_idempotent.1 " Sheet1!A1:B10 " "Sheet1!A1:B10" (by decide)

/-- C2: for page sizes above 200 every issued list-files call carries
`page_size = 200`, for `0 < p ≤ 200` every call carries exactly `p`, and for
`p ≤ 0` a `ValueError` is raised before any call. -/
theorem c2_list_page_size_capping (responses : List (ApiOutcome ListFilesResp))
    (ia : Int → Bool) (ft : Option String) (p : Int) :
    (p ≤ 0 → list_spreadsheets responses ia ft p =
        (.error (.valueError "page_size must be a positive integer"), [])) ∧
    (0 < p → ∀ q ∈ (list_spreadsheets responses ia ft p).2,
        q.page_size = if p > 200 then 200 else p) := by
  constructor
  · intro hp
    simp [list_spreadsheets, hp]
  · intro hp q hq
    have hnp : ¬ p ≤ 0 := by omega
    cases ft with
    | none =>
      simp only [list_spreadsheets, if_neg hnp] at hq
      exact listLoop_pageSize ia _ none responses none [] [] (by simp) q hq
    | some ftk =>
      by_cases hs : pyStrip ftk = ""
      · simp only [list_spreadsheets, if_neg hnp, hs, if_pos rfl] at hq
        simp at hq
      · simp only [list_spreadsheets, if_neg hnp, if_neg hs] at hq
        exact listLoop_pageSize ia _ _ responses none [] [] (by simp) q hq

/-- Witness for C2 at `p = 300` with a one-page script: the only issued call
carries `page_size = 200`. -/
theorem c2_list_page_size_capping_witness :
    (0 : Int) < 300 ∧
    ∀ q ∈ (list_spreadsheets [.ok ⟨[], none⟩] (fun _ => false) none 300).2,
      q.page_size = if (300 : Int) > 200 then 200 else 300 :=
  ⟨by decide,
   (c2_list_page_size_capping [.ok ⟨[], none⟩] (fun _ => false) none 300).2 (by decide)⟩

/-- C5: over any provider page sequence (all pages well-formed, every page
but the last carrying a truthy token, the last carrying none),
`list_spreadsheets` returns exactly the per-page filtered-and-parsed "sheet"
entries concatenated in arrival order, issues one request per page chaining
the opaque tokens, and hence calls the transport exactly `pages.length`
times. -/
theorem c5_list_pagination_order (ia : Int → Bool) (p : Int)
    (pages : List ListFilesResp)
    (hp : 0 < p) (hne : pages ≠ [])
    (hmid : ∀ pg ∈ pages.dropLast, tokenTruthy pg.page_token = true)
    (hlast : ∀ pg ∈ pages.getLast?, tokenTruthy pg.page_token = false) :
    list_spreadsheets (pages.map .ok) ia none p =
      (.ok ((pages.map fun pg => processFiles pg.files).join),
       chainedRequests (if p > 200 then 200 else p) none none pages) ∧
    (list_spreadsheets (pages.map .ok) ia none p).2.length = pages.length := by
  have hnp : ¬ p ≤ 0 := by omega
  have h := listLoop_ok_script ia (if p > 200 then 200 else p) none pages
    none [] [] hne hmid hlast
  constructor
  · simp only [list_spreadsheets, if_neg hnp]
    rw [h]; simp
  · simp only [list_spreadsheets, if_neg hnp]
    rw [h]; simp [chainedRequests_length]

/-- Witness for C5: the two-page mock (token "next" then none, one document
each) returns both documents in order and issues exactly two calls. -/
theorem c5_list_pagination_order_witness :
    (list_spreadsheets
      [.ok ⟨[⟨some "sheet", some "t1", some "n1", some "u1"⟩], some "next"⟩,
       .ok ⟨[⟨some "sheet", some "t2", some "n2", some "u2"⟩], none⟩]
      (fun _ => false) none 50).1 =
      .ok [⟨"t1", "n1", "u1"⟩, ⟨"t2", "n2", "u2"⟩] ∧
    (list_spreadsheets
      [.ok ⟨[⟨some "sheet", some "t1", some "n1", some "u1"⟩], some "next"⟩,
       .ok ⟨[⟨some "sheet", some "t2", some "n2", some "u2"⟩], none⟩]
      (fun _ => false) none 50).2.length = 2 := by
  have h := c5_list_pagination_order (fun _ => false) 50
    [⟨[⟨some "sheet", some "t1", some "n1", some "u1"⟩], some "next"⟩,
     ⟨[⟨some "sheet", some "t2", some "n2", some "u2"⟩], none⟩]
    (by decide) (by decide) (by decide) (by decide)
  simp only [List.map_cons, List.map_nil] at h
  exact ⟨by rw [h.1]; rfl, h.2⟩

/-- C10: `list_spreadsheets` is all-or-nothing across pages — when a
provider error arrives on the page after an all-successful prefix whose
pages each carried a continuation token, the operation propagates the
remapped error; the documents parsed from the earlier pages are not
returned. -/
theorem c10_list_all_or_nothing (ia : Int → Bool) (p : Int)
    (pages : List ListFilesResp) (e : FeishuAPIError)
    (rest : List (ApiOutcome ListFilesResp))
    (hp : 0 < p)
    (htok : ∀ pg ∈ pages, tokenTruthy pg.page_token = true) :
    (list_spreadsheets (pages.map .ok ++ .apiError e :: rest) ia none p).1 =
      .error (.apiError (mapListFilesError ia e)) := by
  have hnp : ¬ p ≤ 0 := by omega
  simp only [list_spreadsheets, if_neg hnp]
  exact listLoop_error_after ia _ none e pages rest none [] [] htok

/-- Witness for C10: a successful first page holding one document followed
by a failing second page yields the remapped error, not a partial list. -/
theorem c10_list_all_or_nothing_witness :
    (list_spreadsheets
      [.ok ⟨[⟨some "sheet", some "t1", some "n1", some "u1"⟩], some "next"⟩,
       .apiError ⟨999, "boom", 500⟩]
      (fun _ => false) none 50).1 =
      .error (.apiError (mapListFilesError (fun _ => false) ⟨999, "boom", 500⟩)) :=
  c10_list_all_or_nothing (fun _ => false) 50
    [⟨[⟨some "sheet", some "t1", some "n1", some "u1"⟩], some "next"⟩]
    ⟨999, "boom", 500⟩ [] (by decide) (by decide)

/-- C1 counterexample: a batch read of one validated range where the
provider returns an empty `valueRanges` list reaches the provider (one
call) yet returns zero entries — the result list length is the provider's
list length, not the request list length. -/
theorem c1_counterexample :
    read_multiple_ranges (.ok ⟨[]⟩) (fun _ => false) "tok" ["S1!A1:B2"]
      "UnformattedValue" "FormattedString" = (.ok [], 1) ∧
    (0 : Nat) ≠ (["S1!A1:B2"] : List String).length := by
  constructor
  · rfl
  · decide

/-- C1 (amended): a batch range read that reaches the provider returns one
entry per entry of the provider's returned `valueRanges` list, in that
order; a malformed provider entry at index `i` is replaced by a well-formed
empty placeholder echoing the validated requested range at `i` (a synthetic
name beyond the request count); consequently the result length equals the
request length whenever the provider returns exactly one entry per
requested range. -/
theorem c1_batch_result_alignment (ia : Int → Bool) (tok : String)
    (ranges vds : List String) (vrs : List RawRange)
    (htok1 : tok ≠ "") (htok2 : pyStrip tok ≠ "")
    (hne : ranges ≠ []) (hlen : ¬ ranges.length > 100)
    (hv : validateRanges ranges 0 = .ok vds) :
    (read_multiple_ranges (.ok ⟨vrs⟩) ia tok ranges
        "UnformattedValue" "FormattedString").2 = 1 ∧
    (read_multiple_ranges (.ok ⟨vrs⟩) ia tok ranges
        "UnformattedValue" "FormattedString").1 = .ok (mapValueRanges vds vrs 0) ∧
    (mapValueRanges vds vrs 0).length = vrs.length ∧
    (vrs.length = ranges.length → (mapValueRanges vds vrs 0).length = ranges.length) ∧
    (∀ (i : Nat) (h1 : i < vrs.length) (h2 : i < (mapValueRanges vds vrs 0).length),
      RangeData.from_api_response (vrs.get ⟨i, h1⟩) = none →
        (mapValueRanges vds vrs 0).get ⟨i, h2⟩ =
          { range := vds.getD i ("unknown_range_" ++ toString i),
            major_dimension := "ROWS", values := [], revision := 0 }) := by
  have hne0 : ¬ ranges.length = 0 := by
    intro h0
    exact hne (List.length_eq_zero.mp h0)
  have heq : read_multiple_ranges (.ok ⟨vrs⟩) ia tok ranges
      "UnformattedValue" "FormattedString" = (.ok (mapValueRanges vds vrs 0), 1) := by
    simp only [read_multiple_ranges, if_neg htok1, if_neg htok2, if_neg hne0,
      if_neg hlen, hv]
    norm_num [validValueOptions, validDatetimeOptions]
  refine ⟨by rw [heq], by rw [heq], mapValueRanges_length vds vrs 0, ?_, ?_⟩
  · intro h
    rw [mapValueRanges_length vds vrs 0, h]
  · intro i h1 h2 hbad
    have := mapValueRanges_get vds vrs 0 i h1 h2
    rw [this, hbad]
    simp [placeholderRange]

/-- Witness for C1 (amended): one requested range, one malformed provider
entry; the single result entry is the placeholder echoing the requested
range. -/
theorem c1_batch_result_alignment_witness :
    (read_multiple_ranges (.ok ⟨[⟨none, none, [], 0⟩]⟩) (fun _ => false) "tok"
        ["S1!A1:B2"] "UnformattedValue" "FormattedString").2 = 1 ∧
    (read_multiple_ranges (.ok ⟨[⟨none, none, [], 0⟩]⟩) (fun _ => false) "tok"
        ["S1!A1:B2"] "UnformattedValue" "FormattedString").1 =
      .ok [{ range := "S1!A1:B2", major_dimension := "ROWS",
             values := [], revision := 0 }] := by
  have h := c1_batch_result_alignment (fun _ => false) "tok" ["S1!A1:B2"]
    ["S1!A1:B2"] [⟨none, none, [], 0⟩] (by decide) (by decide) (by decide)
    (by decide) (by rfl)
  exact ⟨h.1, h.2.1.trans (by rfl)⟩

/-- C4: a batch read of more than 100 ranges, or of an empty list, raises a
`ValueError` with zero transport calls; an invalid member range raises a
`ValueError` naming its index with zero calls; a batch of exactly 100 valid
ranges proceeds to exactly one provider call. -/
theorem c4_batch_size_limits (t : ApiOutcome MultiRangeResp) (ia : Int → Bool)
    (tok : String) (ranges vds : List String) (vro dtro : String)
    (htok1 : tok ≠ "") (htok2 : pyStrip tok ≠ "") :
    (ranges.length > 100 →
      read_multiple_ranges t ia tok ranges vro dtro =
        (.error (.valueError "ranges cannot contain more than 100 items"), 0)) ∧
    (ranges = [] →
      read_multiple_ranges t ia tok ranges vro dtro =
        (.error (.valueError "ranges cannot be empty"), 0)) ∧
    (∀ (i : Nat) (hi : i < ranges.length),
      ¬ ranges.length > 100 →
      (∀ r ∈ ranges.take i, (validate_range_spec r).isSome) →
      validate_range_spec (ranges.get ⟨i, hi⟩) = none →
      read_multiple_ranges t ia tok ranges vro dtro =
        (.error (.valueError ("Invalid range at index " ++ toString i ++
          ": invalid range_spec")), 0)) ∧
    (ranges.length = 100 → validateRanges ranges 0 = .ok vds →
      validValueOptions.contains vro = true →
      validDatetimeOptions.contains dtro = true →
      (read_multiple_ranges t ia tok ranges vro dtro).2 = 1) := by
  refine ⟨?_, ?_, ?_, ?_⟩
  · intro hg
    have hne0 : ¬ ranges.length = 0 := by omega
    simp only [read_multiple_ranges, if_neg htok1, if_neg htok2, if_neg hne0,
      if_pos hg]
  · intro h
    subst h
    simp [read_multiple_ranges, if_neg htok1, if_neg htok2]
  · intro i hi hlen hvalid hbad
    have hne0 : ¬ ranges.length = 0 := by omega
    have hfirst := validateRanges_first_bad ranges i 0 hi hvalid hbad
    rw [Nat.zero_add] at hfirst
    simp only [read_multiple_ranges, if_neg htok1, if_neg htok2, if_neg hne0,
      if_neg hlen, hfirst]
  · intro hlen hv hvro hdtro
    have hne0 : ¬ ranges.length = 0 := by omega
    have hgt : ¬ ranges.length > 100 := by omega
    simp only [read_multiple_ranges, if_neg htok1, if_neg htok2, if_neg hne0,
      if_neg hgt, hv, hvro, hdtro]
    cases t <;> simp

/-- Witness for C4: 101 ranges are rejected with zero calls, an empty list
is rejected with zero calls, an invalid member is reported with its index
and zero calls, and 100 valid ranges lead to exactly one call. -/
theorem c4_batch_size_limits_witness :
    read_multiple_ranges (.ok ⟨[]⟩) (fun _ => false) "tok"
        (List.replicate 101 "S1!A1:B2") "UnformattedValue" "FormattedString" =
      (.error (.valueError "ranges cannot contain more than 100 items"), 0) ∧
    read_multiple_ranges (.ok ⟨[]⟩) (fun _ => false) "tok" []
        "UnformattedValue" "FormattedString" =
      (.error (.valueError "ranges cannot be empty"), 0) ∧
    read_multiple_ranges (.ok ⟨[]⟩) (fun _ => false) "tok" ["A1:B2"]
        "UnformattedValue" "FormattedString" =
      (.error (.valueError ("Invalid range at index " ++ toString 0 ++
        ": invalid range_spec")), 0) ∧
    (read_multiple_ranges (.ok ⟨[]⟩) (fun _ => false) "tok"
        (List.replicate 100 "S1!A1:B2") "UnformattedValue" "FormattedString").2 = 1 := by
  refine ⟨?_, ?_, ?_, ?_⟩
  · exact (c4_batch_size_limits (.ok ⟨[]⟩) (fun _ => false) "tok"
      (List.replicate 101 "S1!A1:B2") [] "UnformattedValue" "FormattedString"
      (by decide) (by decide)).1 (by decide)
  · exact (c4_batch_size_limits (.ok ⟨[]⟩) (fun _ => false) "tok" [] []
      "UnformattedValue" "FormattedString" (by decide) (by decide)).2.1 rfl
  · exact (c4_batch_size_limits (.ok ⟨[]⟩) (fun _ => false) "tok" ["A1:B2"] []
      "UnformattedValue" "FormattedString" (by decide) (by decide)).2.2.1 0
      (by decide) (by decide) (by simp) (by decide)
  · exact (c4_batch_size_limits (.ok ⟨[]⟩) (fun _ => false) "tok"
      (List.replicate 100 "S1!A1:B2") (List.replicate 100 "S1!A1:B2")
      "UnformattedValue" "FormattedString" (by decide) (by decide)).2.2.2
      (by decide) (by rfl) (by decide) (by decide)

/-- C3: a range string with no `sheetId!` prefix given to `read_range` or
`read_multiple_ranges`, and a search text that does not compile as a regex
given to `find_cells` with `search_by_regex = true`, each raise a
`ValueError` with zero transport calls. -/
theorem c3_validation_before_network
    (t1 : ApiOutcome RawRange) (t2 : ApiOutcome MultiRangeResp)
    (t3 : ApiOutcome RawFind) (ia : Int → Bool) (regexOk : String → Bool)
    (tok r vro dtro sid rsp ftx : String) (ranges : List String)
    (mc mec inf : Bool)
    (htok1 : tok ≠ "") (htok2 : pyStrip tok ≠ "")
    (hr : '!' ∉ r.data) :
    read_range t1 ia tok r vro dtro =
      (.error (.valueError "invalid range_spec"), 0) ∧
    (r ∈ ranges →
      (read_multiple_ranges t2 ia tok ranges vro dtro).2 = 0 ∧
      ∃ m, (read_multiple_ranges t2 ia tok ranges vro dtro).1 =
        .error (.valueError m)) ∧
    (sid ≠ "" → pyStrip sid ≠ "" → rsp ≠ "" → pyStrip rsp ≠ "" →
     ftx ≠ "" → pyStrip ftx ≠ "" → regexOk (pyStrip ftx) = false →
      find_cells t3 ia regexOk tok sid rsp ftx mc mec true inf =
        (.error (.valueError "Invalid regular expression"), 0)) := by
  have hv : validate_range_spec r = none := validate_none_of_no_bang hr
  refine ⟨?_, ?_, ?_⟩
  · simp only [read_range, if_neg htok1, if_neg htok2, hv]
  · intro hmem
    have hne0 : ¬ ranges.length = 0 := by
      intro h0
      rw [List.length_eq_zero.mp h0] at hmem
      exact List.not_mem_nil r hmem
    by_cases hgt : ranges.length > 100
    · have heq : read_multiple_ranges t2 ia tok ranges vro dtro =
          (.error (.valueError "ranges cannot contain more than 100 items"), 0) := by
        simp only [read_multiple_ranges, if_neg htok1, if_neg htok2, if_neg hne0,
          if_pos hgt]
      rw [heq]
      exact ⟨rfl, _, rfl⟩
    · obtain ⟨m, hm⟩ := validateRanges_mem_none ranges hmem hv 0
      have heq : read_multiple_ranges t2 ia tok ranges vro dtro =
          (.error (.valueError m), 0) := by
        simp only [read_multiple_ranges, if_neg htok1, if_neg htok2, if_neg hne0,
          if_neg hgt, hm]
      rw [heq]
      exact ⟨rfl, m, rfl⟩
  · intro hs1 hs2 hr1 hr2 hf1 hf2 hregex
    simp only [find_cells, if_neg htok1, if_neg htok2, if_neg hs1, if_neg hs2,
      if_neg hr1, if_neg hr2, if_neg hf1, if_neg hf2, hregex]
    simp

/-- Witness for C3: "A1:B10" lacks the prefix and is rejected by both range
readers with zero calls; the non-compiling pattern "[" (checked by a
compile predicate rejecting it) is rejected by `find_cells` with zero
calls. -/
theorem c3_validation_before_network_witness :
    read_range (.ok ⟨some "x", some "ROWS", [], 0⟩) (fun _ => false) "tok"
        "A1:B10" "UnformattedValue" "FormattedString" =
      (.error (.valueError "invalid range_spec"), 0) ∧
    (read_multiple_ranges (.ok ⟨[]⟩) (fun _ => false) "tok" ["A1:B10"]
        "UnformattedValue" "FormattedString").2 = 0 ∧
    find_cells (.ok ⟨[], []⟩) (fun _ => false) (fun _ => false) "tok" "sheet1"
        "A1:B10" "[" false false true false =
      (.error (.valueError "Invalid regular expression"), 0) := by
  have h := c3_validation_before_network (.ok ⟨some "x", some "ROWS", [], 0⟩)
    (.ok ⟨[]⟩) (.ok ⟨[], []⟩) (fun _ => false) (fun _ => false) "tok" "A1:B10"
    "UnformattedValue" "FormattedString" "sheet1" "A1:B10" "[" ["A1:B10"]
    false false false (by decide) (by decide) (by decide)
  exact ⟨h.1, (h.2.1 (by decide)).1,
    h.2.2 (by decide) (by decide) (by decide) (by decide) (by decide)
      (by decide) rfl⟩

/-- C6: a provider failure with code 1310214 is re-raised as the localized
"spreadsheet does not exist" error (NotFound category), 1310213 as the
localized "no read permission" error (Permission), and 1310218 as the
localized "over size limit" error (SizeLimit), in each case preserving the
original code and HTTP status and calling the transport exactly once (no
retry inside the operation). -/
theorem c6_error_code_remapping (e : FeishuAPIError) (ia : Int → Bool)
    (tok r : String)
    (htok1 : tok ≠ "") (htok2 : pyStrip tok ≠ "")
    (hr : (validate_range_spec r).isSome) :
    (e.code = 1310214 →
      read_range (.apiError e) ia tok r "UnformattedValue" "FormattedString" =
        (.error (.apiError ⟨e.code, msgSpreadsheetNotFound, e.http_status⟩), 1) ∧
      get_worksheets (.apiError e) ia tok =
        (.error (.apiError ⟨e.code, msgSpreadsheetNotFound, e.http_status⟩), 1) ∧
      errorCategoryOfCode e.code = .notFound) ∧
    (e.code = 1310213 →
      read_range (.apiError e) ia tok r "UnformattedValue" "FormattedString" =
        (.error (.apiError ⟨e.code, msgReadPermission, e.http_status⟩), 1) ∧
      get_worksheets (.apiError e) ia tok =
        (.error (.apiError ⟨e.code, msgReadPermission, e.http_status⟩), 1) ∧
      errorCategoryOfCode e.code = .permission) ∧
    (e.code = 1310218 →
      read_range (.apiError e) ia tok r "UnformattedValue" "FormattedString" =
        (.error (.apiError ⟨e.code, msgSizeLimitRange, e.http_status⟩), 1) ∧
      errorCategoryOfCode e.code = .sizeLimit) := by
  obtain ⟨v, hv⟩ := Option.isSome_iff_exists.mp hr
  refine ⟨fun hc => ⟨?_, ?_, ?_⟩, fun hc => ⟨?_, ?_, ?_⟩, fun hc => ⟨?_, ?_⟩⟩
  · simp only [read_range, if_neg htok1, if_neg htok2, hv]
    norm_num [validValueOptions, validDatetimeOptions, mapReadRangeError, hc]
  · simp only [get_worksheets, if_neg htok1, if_neg htok2]
    norm_num [mapWorksheetsError, hc]
  · rw [hc]; rfl
  · simp only [read_range, if_neg htok1, if_neg htok2, hv]
    norm_num [validValueOptions, validDatetimeOptions, mapReadRangeError, hc]
  · simp only [get_worksheets, if_neg htok1, if_neg htok2]
    norm_num [mapWorksheetsError, hc]
  · rw [hc]; rfl
  · simp only [read_range, if_neg htok1, if_neg htok2, hv]
    norm_num [validValueOptions, validDatetimeOptions, mapReadRangeError, hc]
  · rw [hc]; rfl

/-- Witness for C6 at concrete errors with codes 1310214, 1310213 and
1310218. -/
theorem c6_error_code_remapping_witness :
    read_range (.apiError ⟨1310214, "orig", 404⟩) (fun _ => false) "tok"
        "S1!A1:B2" "UnformattedValue" "FormattedString" =
      (.error (.apiError ⟨1310214, msgSpreadsheetNotFound, 404⟩), 1) ∧
    get_worksheets (.apiError ⟨1310213, "orig", 403⟩) (fun _ => false) "tok" =
      (.error (.apiError ⟨1310213, msgReadPermission, 403⟩), 1) ∧
    read_range (.apiError ⟨1310218, "orig", 400⟩) (fun _ => false) "tok"
        "S1!A1:B2" "UnformattedValue" "FormattedString" =
      (.error (.apiError ⟨1310218, msgSizeLimitRange, 400⟩), 1) :=
  ⟨((c6_error_code_remapping ⟨1310214, "orig", 404⟩ (fun _ => false) "tok"
      "S1!A1:B2" (by decide) (by decide) (by decide)).1 rfl).1,
   ((c6_error_code_remapping ⟨1310213, "orig", 403⟩ (fun _ => false) "tok"
      "S1!A1:B2" (by decide) (by decide) (by decide)).2.1 rfl).2.1,
   ((c6_error_code_remapping ⟨1310218, "orig", 400⟩ (fun _ => false) "tok"
      "S1!A1:B2" (by decide) (by decide) (by decide)).2.2 rfl).1⟩

/-- C8: an exception that is not a classified provider error is wrapped
into a `FeishuAPIError` with sentinel code `-1` (distinct from every
provider code handled by the operations) whose message carries the original
exception text; the raw exception never propagates. -/
theorem c8_unexpected_exception_wrapped (m : String) (ia : Int → Bool)
    (tok r : String)
    (htok1 : tok ≠ "") (htok2 : pyStrip tok ≠ "")
    (hr : (validate_range_spec r).isSome) :
    read_range (.exn m) ia tok r "UnformattedValue" "FormattedString" =
      (.error (.apiError ⟨-1, wrapHeadRange ++ m, 500⟩), 1) ∧
    (list_spreadsheets [.exn m] ia none 50).1 =
      .error (.apiError ⟨-1, wrapHeadList ++ m, 500⟩) ∧
    (-1 : Int) ∉
      ([1061004, 1310213, 1310214, 1310215, 1310216, 1310218, 1310219] :
        List Int) := by
  obtain ⟨v, hv⟩ := Option.isSome_iff_exists.mp hr
  refine ⟨?_, ?_, by decide⟩
  · simp only [read_range, if_neg htok1, if_neg htok2, hv]
    norm_num [validValueOptions, validDatetimeOptions]
  · simp [list_spreadsheets, listLoop]

/-- Witness for C8 at the concrete exception text "boom". -/
theorem c8_unexpected_exception_wrapped_witness :
    read_range (.exn "boom") (fun _ => false) "tok" "S1!A1:B2"
        "UnformattedValue" "FormattedString" =
      (.error (.apiError ⟨-1, wrapHeadRange ++ "boom", 500⟩), 1) ∧
    (list_spreadsheets [.exn "boom"] (fun _ => false) none 50).1 =
      .error (.apiError ⟨-1, wrapHeadList ++ "boom", 500⟩) := by
  have h := c8_unexpected_exception_wrapped "boom" (fun _ => false) "tok"
    "S1!A1:B2" (by decide) (by decide) (by decide)
  exact ⟨h.1, h.2.1⟩
